import Mathlib

/-!
Shallow embedding of `src/static/js/script.js` (multilingual static-site
content loader) and verification of its specification claims.

Modelling conventions:
  * JavaScript `null` for the string-valued globals `currentLanguage` and
    `currentPage` is represented by the empty string `""` (the code only
    ever tests these values for truthiness or compares them with non-empty
    language codes / page names, so the two falsy representations are
    interchangeable here).
  * `localStorage.getItem` returning `null` is `Option.none`.
  * The browser environment (responses of `fetch`, availability and
    behaviour of the `marked` markdown converter) is an explicit `Env`
    record of pure oracles; a failed or non-ok fetch is `none`.
  * Observable effects (fetches issued, tabs opened, history entries
    pushed, console errors) are recorded in ghost fields of the state.
  * `await`ed operations are sequentialized in program order; the two
    `Promise.all` fan-outs in the source touch the state through their own
    local handlers only, so sequential composition is faithful.
-/

namespace Katunayaka

/-- `s.replace(pat, rep)` on JavaScript strings replaces only the first
occurrence of `pat`; Lean's `String.replace` replaces all of them, so we
model the JavaScript behaviour directly on character lists. -/
def replaceFirstList (rep pat : List Char) : List Char → List Char
  | [] => []
  | c :: rest =>
    if pat.isPrefixOf (c :: rest) then rep ++ (c :: rest).drop pat.length
    else c :: replaceFirstList rep pat rest

/-- JavaScript `s.replace(pat, rep)` with a plain-string pattern. -/
def replaceFirst (s pat rep : String) : String :=
  String.mk (replaceFirstList rep.data pat.data s.data)

/-- JavaScript `s.startsWith(p)`. -/
def startsWithStr (s p : String) : Bool :=
  p.data.isPrefixOf s.data

/-- JavaScript `fileName.split('.').pop()`: the segment after the last dot,
or the whole string when there is no dot. -/
def extOf (s : String) : String :=
  String.mk ((s.data.reverse.takeWhile (fun c => c != '.')).reverse)

/-- JavaScript `a || b` for a possibly-null / possibly-empty string `a`. -/
def jsOr (v : Option String) (d : String) : String :=
  match v with
  | none => d
  | some s => if s = "" then d else s

/-- First-match association-list lookup, modelling reads of the plain-object
caches `cache.nav` / `cache.pages` (writes are modelled by prepending, which
shadows older entries exactly like property assignment). -/
def lookupKey {α : Type} : List (String × α) → String → Option α
  | [], _ => none
  | (k, v) :: rest, key => if k = key then some v else lookupKey rest key

/-- JavaScript truthiness of a possibly-absent string property: `undefined`
and the empty string are both falsy.  This is the test
`if (cache.pages[cacheKey])` performs, so a cached empty string does NOT
count as a cache hit. -/
def jsTruthy (v : Option String) : Bool :=
  match v with
  | none => false
  | some s => s != ""

/- Navigation data (the per-language JSON document).  `sub_menu` is either
absent (`none`) or an array (`some`), possibly empty: the source tests
`item.sub_menu && Array.isArray(item.sub_menu)`, and an empty JavaScript
array is truthy. -/

mutual
inductive NavItem : Type where
  | mk : String → Option String → Option NavList → NavItem

inductive NavList : Type where
  | nil : NavList
  | cons : NavItem → NavList → NavList
end

def NavItem.text : NavItem → String
  | .mk t _ _ => t

def NavItem.link : NavItem → Option String
  | .mk _ l _ => l

def NavItem.sub : NavItem → Option NavList
  | .mk _ _ s => s

def NavList.length : NavList → Nat
  | .nil => 0
  | .cons _ rest => rest.length + 1

/-- The navigation JSON schema `{ name, payment, nav: [...] }`. -/
structure NavData where
  name : String
  payment : String
  nav : NavList

/-- What a click handler installed on a rendered anchor does. -/
inductive ClickAction : Type where
  | closeNav : ClickAction
  | internalNav : Option String → ClickAction

/-- A rendered DOM element: tag, classList, attributes, textContent, click
handler, children. -/
inductive DomNode : Type where
  | elem : String → List String → List (String × String) → String →
      Option ClickAction → List DomNode → DomNode

def DomNode.tag : DomNode → String
  | .elem t _ _ _ _ _ => t

def DomNode.classes : DomNode → List String
  | .elem _ c _ _ _ _ => c

def DomNode.children : DomNode → List DomNode
  | .elem _ _ _ _ _ ch => ch

def DomNode.childCount (n : DomNode) : Nat :=
  n.children.length

/-- The `CONFIG` constant of the script. -/
structure Config where
  defaultLanguage : String
  defaultPage : String
  supportedLanguages : List String

def CONFIG : Config :=
  { defaultLanguage := "si"
    defaultPage := "home.html"
    supportedLanguages := ["si", "en", "ta"] }

/-- `CONFIG.languageLabels` as a partial map (JavaScript property access on
a missing key gives `undefined`, here `none`). -/
def languageLabels (l : String) : Option String :=
  if l = "si" then some "සිංහල"
  else if l = "en" then some "English"
  else if l = "ta" then some "தமிழ்"
  else none

/-- The mutable program state together with ghost effect logs. -/
structure AppState where
  currentLanguage : String
  currentPage : String
  storedLanguage : Option String
  cacheNav : List (String × NavData)
  cachePages : List (String × String)
  navData : Option NavData
  renderedNav : Option NavData
  contentDiv : Option String
  langLabel : Option String
  history : List (String × String)
  url : Option (String × String)
  fetchLog : List String
  openedTabs : List String
  errorLog : List String

/-- The state at script load: `currentLanguage = null`, `currentPage = null`,
empty caches, no effects yet. -/
def st0 : AppState :=
  { currentLanguage := ""
    currentPage := ""
    storedLanguage := none
    cacheNav := []
    cachePages := []
    navData := none
    renderedNav := none
    contentDiv := none
    langLabel := none
    history := []
    url := none
    fetchLog := []
    openedTabs := []
    errorLog := [] }

/-- The browser environment: fetch responses (`none` models a network error
or a non-ok response) and the `marked` markdown converter. -/
structure Env where
  fetchText : String → Option String
  fetchNav : String → Option NavData
  markedAvailable : Bool
  markedParse : String → String

/-- `validateLanguage(lang)`: the argument or `null`. -/
def validateLanguage (lang : Option String) : Option String :=
  match lang with
  | some s => if s ∈ CONFIG.supportedLanguages then some s else none
  | none => none

/-- `isExternalURL(url)` (for a string argument; `url &&` truthiness is
subsumed because the empty string starts with neither scheme). -/
def isExternalURL (url : String) : Bool :=
  startsWithStr url "http://" || startsWithStr url "https://"

/-- `isExternalURL` applied to a possibly-undefined link. -/
def isExternalOpt (url : Option String) : Bool :=
  match url with
  | some u => isExternalURL u
  | none => false

/-- The URL query parameters read at startup. -/
structure URLParams where
  lang : Option String
  page : Option String

/-- `initializeFromURL()`: resolve the language as
`validateLanguage(langParam) || validateLanguage(localStorage.getItem('language')) || CONFIG.defaultLanguage`
(validated values are non-empty, hence truthy, so `||` is Option
fall-through), resolve the page as `pageParam || CONFIG.defaultPage`, and
persist the resolved language. -/
def initFromURL (params : URLParams) (st : AppState) : AppState :=
  let lang :=
    match validateLanguage params.lang with
    | some u => u
    | none =>
      match validateLanguage st.storedLanguage with
      | some s => s
      | none => CONFIG.defaultLanguage
  let page := jsOr params.page CONFIG.defaultPage
  { st with currentLanguage := lang, currentPage := page,
            storedLanguage := some lang }

/-- `updateTextContent`/`renderNavigation` reduced to its state effect: the
navigation document that the three containers were repopulated from. -/
def renderNavigation (d : NavData) (st : AppState) : AppState :=
  { st with renderedNav := some d }

/-- `loadNavigation(lang)` with its one-level fallback.  The source recurses
at most once (the fallback call has `lang = CONFIG.defaultLanguage`, for
which the `lang !== CONFIG.defaultLanguage` guard is false), so a fuel of 2
at every top-level call site makes the model total without changing any
reachable behaviour. -/
def loadNavigation (env : Env) : Nat → String → AppState → AppState
  | 0, _, st => st
  | fuel + 1, lang, st =>
    match lookupKey st.cacheNav lang with
    | some d => renderNavigation d { st with navData := some d }
    | none =>
      let st1 := { st with fetchLog := st.fetchLog ++ ["static/lang/" ++ lang ++ ".json"] }
      match env.fetchNav lang with
      | some d =>
        renderNavigation d
          { st1 with navData := some d, cacheNav := (lang, d) :: st1.cacheNav }
      | none =>
        let st2 := { st1 with errorLog := st1.errorLog ++ ["Failed to load navigation for " ++ lang] }
        if lang = CONFIG.defaultLanguage then st2
        else
          let st3 := { st2 with errorLog := st2.errorLog ++ ["Falling back to " ++ CONFIG.defaultLanguage] }
          loadNavigation env fuel CONFIG.defaultLanguage st3

/-- `static/lang/{lang}.json`, the navigation fetch path. -/
def navFetchPath (lang : String) : String :=
  "static/lang/" ++ lang ++ ".json"

/-- `renderContent(content)`: replace the content container (the smooth
scroll has no modelled state). -/
def renderContent (content : String) (st : AppState) : AppState :=
  { st with contentDiv := some content }

/-- `updateURL(page, lang)`: push a history entry and set the URL. -/
def updateURL (page lang : String) (st : AppState) : AppState :=
  { st with history := st.history ++ [(page, lang)], url := some (page, lang) }

/-- `showError(message)`: console.error plus the error panel markup. -/
def errorHtml (msg : String) : String :=
  "<div class=\"alert alert-danger\" role=\"alert\"><h4 class=\"alert-heading\">Error</h4><p>"
    ++ msg ++
    "</p><hr><p class=\"mb-0\">Please try refreshing the page or contact support if the problem persists.</p></div>"

def showError (msg : String) (st : AppState) : AppState :=
  { st with errorLog := st.errorLog ++ [msg], contentDiv := some (errorHtml msg) }

/-- The file-name resolution step of `loadContent`: pages whose name with
the first `'.html'` occurrence removed is `contact` or `about` resolve to
that stem plus `.md`; every other page keeps its given name. -/
def resolveFileName (pageName : String) : String :=
  if replaceFirst pageName ".html" "" ∈ ["contact", "about"] then
    replaceFirst pageName ".html" "" ++ ".md"
  else pageName

/-- The markdown-processing step of `loadContent`:
`extension === 'md' && typeof marked !== 'undefined'`. -/
def processedOf (env : Env) (fileName content : String) : String :=
  if extOf fileName = "md" ∧ env.markedAvailable = true then env.markedParse content
  else content

/-- `loadContent(pageName, lang)`.  The cache test is the JavaScript
truthiness check `if (cache.pages[cacheKey])`, so a cached empty string is
treated as a miss and re-fetched. -/
def loadContent (env : Env) (pageName0 lang0 : String) (st : AppState) : AppState :=
  let lang := if lang0 = "" then st.currentLanguage else lang0
  let pageName := if pageName0 = "" then CONFIG.defaultPage else pageName0
  if isExternalURL pageName then
    { st with openedTabs := st.openedTabs ++ [pageName] }
  else
    let cacheKey := lang ++ "-" ++ pageName
    if jsTruthy (lookupKey st.cachePages cacheKey) then
      let content := (lookupKey st.cachePages cacheKey).getD ""
      let st1 := renderContent content st
      let st2 := updateURL pageName lang st1
      { st2 with currentPage := pageName }
    else
      let fileName := resolveFileName pageName
      let filePath := "pages/" ++ lang ++ "/" ++ fileName
      let st1 := { st with fetchLog := st.fetchLog ++ [filePath] }
      match env.fetchText filePath with
      | none =>
        showError ("Failed to load page: " ++ pageName)
          { st1 with errorLog := st1.errorLog ++ ["Failed to load content: " ++ pageName] }
      | some content =>
        let processed := processedOf env fileName content
        let st2 := { st1 with cachePages := (cacheKey, processed) :: st1.cachePages }
        let st3 := renderContent processed st2
        let st4 := updateURL pageName lang st3
        { st4 with currentPage := pageName }

/-- `pages/{lang}/{resolved file name}`, the content fetch path. -/
def contentPath (lang pageName : String) : String :=
  "pages/" ++ lang ++ "/" ++ resolveFileName pageName

/-- `updateLanguageUI()` reduced to its state effect: the displayed label of
the current language (`undefined`, i.e. `none`, for an unsupported code). -/
def updateLanguageUI (st : AppState) : AppState :=
  { st with langLabel := languageLabels st.currentLanguage }

/-- `initializeApp()`: load navigation, load content, update the language
UI (the internal try/catch never fires in the model because the callees
handle their own failures). -/
def initApp (env : Env) (st : AppState) : AppState :=
  let st1 := loadNavigation env 2 st.currentLanguage st
  let st2 := loadContent env st.currentPage st.currentLanguage st1
  updateLanguageUI st2

/-- `setLanguage(newLang)`.  `!validateLanguage(newLang)` is the `none`
test; the two `Promise.all`ed reloads are sequentialized in order. -/
def setLanguage (env : Env) (newLang : String) (st : AppState) : AppState :=
  if validateLanguage (some newLang) = none ∨ newLang = st.currentLanguage then st
  else
    let st1 := { st with currentLanguage := newLang, storedLanguage := some newLang }
    let st2 := loadNavigation env 2 newLang st1
    let st3 := loadContent env st1.currentPage newLang st2
    let st4 := updateLanguageUI st3
    updateURL st4.currentPage newLang st4

/-- The `state` object carried by a history entry, as seen by the popstate
handler (`event.state.lang` / `event.state.page`, each possibly absent). -/
structure PopState where
  lang : Option String
  page : Option String

/-- The `popstate` listener installed by `setupEventListeners()`: it acts
only when `event.state` is truthy; then each field falls back to the
default via `||` and `initializeApp()` is re-run. -/
def handlePopstate (env : Env) (eventState : Option PopState) (st : AppState) : AppState :=
  match eventState with
  | none => st
  | some s =>
    initApp env
      { st with currentLanguage := jsOr s.lang CONFIG.defaultLanguage,
                currentPage := jsOr s.page CONFIG.defaultPage }

/-- `createDropdownToggle(text)`. -/
def createDropdownToggle (text : String) : DomNode :=
  .elem "a" ["nav-link", "dropdown-toggle"]
    [("href", "#"), ("role", "button"), ("data-bs-toggle", "dropdown"),
     ("aria-expanded", "false")]
    text none []

/-- `createDropdownLink(text, link)`. -/
def createDropdownLink (text : String) (link : Option String) : DomNode :=
  if isExternalOpt link then
    .elem "a" ["dropdown-item"]
      [("href", link.getD ""), ("target", "_blank"), ("rel", "noopener noreferrer")]
      text (some .closeNav) []
  else
    .elem "a" ["dropdown-item"] [("href", "#")] text (some (.internalNav link)) []

/-- `createNavLink(text, link)`. -/
def createNavLink (text : String) (link : Option String) : DomNode :=
  if isExternalOpt link then
    .elem "a" ["nav-link"]
      [("href", link.getD ""), ("target", "_blank"), ("rel", "noopener noreferrer")]
      text (some .closeNav) []
  else
    .elem "a" ["nav-link"] [("href", "#")] text (some (.internalNav link)) []

mutual
/-- The body of the `items.forEach` loop in `createDropdownMenu`: one `li`
per item, a submenu toggle plus a nested `createDropdownMenu` when
`sub_menu` is an array, a `createDropdownLink` otherwise. -/
def dropdownMenuEntry : NavItem → DomNode
  | .mk t l sub =>
    match sub with
    | some subList =>
      .elem "li" ["dropdown-submenu"] [] "" none
        [.elem "a" ["dropdown-item", "has-submenu"] [("href", "#")] t none [],
         .elem "ul" ["dropdown-menu"] [] "" none (dropdownMenuEntries subList)]
    | none => .elem "li" [] [] "" none [createDropdownLink t l]

/-- The child list built by `createDropdownMenu(items)`. -/
def dropdownMenuEntries : NavList → List DomNode
  | .nil => []
  | .cons item rest => dropdownMenuEntry item :: dropdownMenuEntries rest
end

/-- `createDropdownMenu(items)`. -/
def createDropdownMenu (items : NavList) : DomNode :=
  .elem "ul" ["dropdown-menu"] [] "" none (dropdownMenuEntries items)

/-- `createNavItem(item)`. -/
def createNavItem : NavItem → DomNode
  | .mk t l sub =>
    match sub with
    | some subList =>
      .elem "li" ["nav-item", "dropdown"] [] "" none
        [createDropdownToggle t, createDropdownMenu subList]
    | none =>
      .elem "li" ["nav-item"] [] "" none [createNavLink t l]

/-- Spec-side definition (follows the words of claim C1, not the code): the
first valid value in the order URL parameter, stored preference, hard-coded
default `'si'`, where valid means membership in `{'si','en','ta'}`. -/
def resolveLanguageSpec (urlLang stored : Option String) : String :=
  match urlLang with
  | some u =>
    if u ∈ ["si", "en", "ta"] then u
    else
      match stored with
      | some s => if s ∈ ["si", "en", "ta"] then s else "si"
      | none => "si"
  | none =>
    match stored with
    | some s => if s ∈ ["si", "en", "ta"] then s else "si"
    | none => "si"

mutual
/-- The rendered shape claims C7 demands of one navigation item: an item
without a `sub_menu` array is a list element whose only child is a link
element; an item with a `sub_menu` array is a list element holding an
anchor toggle plus a dropdown `ul` whose child count equals the sub-item
count, with the same shape recursively inside. -/
def itemNodeOK : NavItem → DomNode → Prop
  | .mk _ _ none, n =>
    n.tag = "li" ∧ ∃ a, n.children = [a] ∧ a.tag = "a"
  | .mk _ _ (some sub), n =>
    n.tag = "li" ∧
    ∃ tg mn, n.children = [tg, mn] ∧ tg.tag = "a" ∧ mn.tag = "ul" ∧
      mn.classes = ["dropdown-menu"] ∧ mn.childCount = sub.length ∧
      itemsNodesOK sub mn.children

/-- Pointwise well-formedness of a rendered dropdown child list. -/
def itemsNodesOK : NavList → List DomNode → Prop
  | .nil, ns => ns = []
  | .cons item rest, ns =>
    match ns with
    | [] => False
    | n :: ns2 => itemNodeOK item n ∧ itemsNodesOK rest ns2
end

/-- A concrete navigation document for witnesses. -/
def navD : NavData :=
  { name := "n", payment := "p", nav := NavList.nil }

/-- A browser environment in which every fetch succeeds (`"hello"` for
text, `navD` for navigation) and the markdown converter is available and
wraps its input in a paragraph. -/
def envA : Env :=
  { fetchText := fun _ => some "hello"
    fetchNav := fun _ => some navD
    markedAvailable := true
    markedParse := fun s => "<p>" ++ s ++ "</p>" }

/-- A browser environment in which every fetch fails. -/
def envFail : Env :=
  { fetchText := fun _ => none
    fetchNav := fun _ => none
    markedAvailable := true
    markedParse := fun s => "<p>" ++ s ++ "</p>" }

/-- A browser environment whose text fetches succeed with an empty body
(an empty 200 response) and with no markdown converter. -/
def envEmpty : Env :=
  { fetchText := fun _ => some ""
    fetchNav := fun _ => none
    markedAvailable := false
    markedParse := fun s => s }

/-- A mid-session state: language `en`, page `x.html`, nothing cached. -/
def stEn : AppState :=
  { st0 with currentLanguage := "en", currentPage := "x.html" }

end Katunayaka

namespace Katunayaka

/-! ### Step lemmas characterising one run of `loadContent` per branch -/

theorem isExternalURL_ne_empty {p : String} (h : isExternalURL p = true) : p ≠ "" := by
  intro he
  subst he
  exact absurd h (by decide)

/-- External branch: the URL is opened in a new tab and nothing else happens. -/
theorem loadContent_external_eq (env : Env) (P L : String) (st : AppState)
    (hext : isExternalURL P = true) :
    loadContent env P L st = { st with openedTabs := st.openedTabs ++ [P] } := by
  have hP : P ≠ "" := isExternalURL_ne_empty hext
  simp [loadContent, hP, hext]

/-- Cache-hit branch (the cached string must be truthy, i.e. non-empty):
render the cached string, push history, set the page. -/
theorem loadContent_cacheHit_eq (env : Env) (P L : String) (st : AppState) (c : String)
    (hext : isExternalURL P = false) (hP : P ≠ "") (hL : L ≠ "")
    (hhit : lookupKey st.cachePages (L ++ "-" ++ P) = some c) (hc : c ≠ "") :
    loadContent env P L st =
      { st with contentDiv := some c, history := st.history ++ [(P, L)],
                url := some (P, L), currentPage := P } := by
  simp [loadContent, jsTruthy, renderContent, updateURL, hP, hL, hext, hhit, hc]

/-- Cache-miss, fetch-success branch: fetch, process, cache, render, push. -/
theorem loadContent_miss_ok_eq (env : Env) (P L : String) (st : AppState) (t : String)
    (hext : isExternalURL P = false) (hP : P ≠ "") (hL : L ≠ "")
    (hmiss : lookupKey st.cachePages (L ++ "-" ++ P) = none)
    (hfetch : env.fetchText (contentPath L P) = some t) :
    loadContent env P L st =
      { st with fetchLog := st.fetchLog ++ [contentPath L P],
                cachePages := (L ++ "-" ++ P, processedOf env (resolveFileName P) t) :: st.cachePages,
                contentDiv := some (processedOf env (resolveFileName P) t),
                history := st.history ++ [(P, L)],
                url := some (P, L),
                currentPage := P } := by
  have hfetch2 : env.fetchText ("pages/" ++ L ++ "/" ++ resolveFileName P) = some t := hfetch
  simp [loadContent, jsTruthy, renderContent, updateURL, contentPath, hP, hL, hext, hmiss, hfetch2]

/-- Cache-miss, fetch-failure branch: log the fetch, log the errors, show
the error panel, change nothing else. -/
theorem loadContent_miss_fail_eq (env : Env) (P L : String) (st : AppState)
    (hext : isExternalURL P = false) (hP : P ≠ "") (hL : L ≠ "")
    (hmiss : lookupKey st.cachePages (L ++ "-" ++ P) = none)
    (hfetch : env.fetchText (contentPath L P) = none) :
    loadContent env P L st =
      { st with fetchLog := st.fetchLog ++ [contentPath L P],
                errorLog := st.errorLog ++ ["Failed to load content: " ++ P]
                              ++ ["Failed to load page: " ++ P],
                contentDiv := some (errorHtml ("Failed to load page: " ++ P)) } := by
  have hfetch2 : env.fetchText ("pages/" ++ L ++ "/" ++ resolveFileName P) = none := hfetch
  simp [loadContent, jsTruthy, showError, contentPath, hP, hL, hext, hmiss, hfetch2]

/-! ### Step lemmas for `loadNavigation` -/

/-- Nav cache hit: no fetch, just render. -/
theorem loadNavigation_hit_eq (env : Env) (fuel : Nat) (L : String) (st : AppState) (d : NavData)
    (hhit : lookupKey st.cacheNav L = some d) :
    loadNavigation env (fuel + 1) L st =
      { st with navData := some d, renderedNav := some d } := by
  simp [loadNavigation, renderNavigation, hhit]

/-- Nav cache miss, fetch success: fetch, cache, render. -/
theorem loadNavigation_miss_ok_eq (env : Env) (fuel : Nat) (L : String) (st : AppState)
    (d : NavData)
    (hmiss : lookupKey st.cacheNav L = none)
    (hfetch : env.fetchNav L = some d) :
    loadNavigation env (fuel + 1) L st =
      { st with fetchLog := st.fetchLog ++ [navFetchPath L],
                navData := some d,
                cacheNav := (L, d) :: st.cacheNav,
                renderedNav := some d } := by
  simp [loadNavigation, renderNavigation, navFetchPath, hmiss, hfetch]

/-- Nav cache miss, fetch failure, default language: log only, no fallback. -/
theorem loadNavigation_fail_default_eq (env : Env) (fuel : Nat) (st : AppState)
    (hmiss : lookupKey st.cacheNav "si" = none)
    (hfetch : env.fetchNav "si" = none) :
    loadNavigation env (fuel + 1) "si" st =
      { st with fetchLog := st.fetchLog ++ [navFetchPath "si"],
                errorLog := st.errorLog ++ ["Failed to load navigation for si"] } := by
  simp [loadNavigation, navFetchPath, hmiss, hfetch, CONFIG]

/-- Nav cache miss, fetch failure, non-default language: exactly one
recursive fallback call on the default language. -/
theorem loadNavigation_fail_fallback_eq (env : Env) (fuel : Nat) (L : String) (st : AppState)
    (hne : L ≠ "si")
    (hmiss : lookupKey st.cacheNav L = none)
    (hfetch : env.fetchNav L = none) :
    loadNavigation env (fuel + 1) L st =
      loadNavigation env fuel "si"
        { st with fetchLog := st.fetchLog ++ [navFetchPath L],
                  errorLog := st.errorLog ++ ["Failed to load navigation for " ++ L]
                                ++ ["Falling back to si"] } := by
  simp [loadNavigation, navFetchPath, hmiss, hfetch, CONFIG, hne]

/-! ### Frame lemmas: which fields each operation leaves untouched -/

theorem loadNavigation_frame (env : Env) (fuel : Nat) (L : String) (st : AppState) :
    (loadNavigation env fuel L st).currentLanguage = st.currentLanguage
    ∧ (loadNavigation env fuel L st).currentPage = st.currentPage
    ∧ (loadNavigation env fuel L st).cachePages = st.cachePages
    ∧ (loadNavigation env fuel L st).contentDiv = st.contentDiv
    ∧ (loadNavigation env fuel L st).history = st.history
    ∧ (loadNavigation env fuel L st).langLabel = st.langLabel := by
  induction fuel generalizing L st with
  | zero => simp [loadNavigation]
  | succ n ih =>
    unfold loadNavigation
    cases h1 : lookupKey st.cacheNav L with
    | some d => simp [renderNavigation]
    | none =>
      cases h2 : env.fetchNav L with
      | some d => simp [renderNavigation]
      | none =>
        by_cases h3 : L = CONFIG.defaultLanguage
        · simp [h3]
        · simp only [h3, if_false, ite_false]
          exact ih _ _

theorem loadContent_frame (env : Env) (P L : String) (st : AppState) :
    (loadContent env P L st).currentLanguage = st.currentLanguage
    ∧ (loadContent env P L st).storedLanguage = st.storedLanguage
    ∧ (loadContent env P L st).cacheNav = st.cacheNav
    ∧ (loadContent env P L st).renderedNav = st.renderedNav
    ∧ (loadContent env P L st).langLabel = st.langLabel := by
  unfold loadContent
  generalize (if P = "" then CONFIG.defaultPage else P) = q
  generalize (if L = "" then st.currentLanguage else L) = m
  by_cases hq : isExternalURL q = true
  · simp [hq]
  · by_cases ht : jsTruthy (lookupKey st.cachePages (m ++ "-" ++ q)) = true
    · simp [hq, ht, renderContent, updateURL]
    · cases hf : env.fetchText ("pages/" ++ m ++ "/" ++ resolveFileName q) with
      | none => simp [hq, ht, hf, showError]
      | some c => simp [hq, ht, hf, renderContent, updateURL]

/-- `initializeApp` never changes the current language: neither callee
writes it. -/
theorem initApp_currentLanguage (env : Env) (st : AppState) :
    (initApp env st).currentLanguage = st.currentLanguage := by
  unfold initApp updateLanguageUI
  dsimp only
  rw [(loadContent_frame env st.currentPage st.currentLanguage
        (loadNavigation env 2 st.currentLanguage st)).1,
      (loadNavigation_frame env 2 st.currentLanguage st).1]

/-- After `initializeApp`, the displayed language label is the label of the
(unchanged) current language. -/
theorem initApp_langLabel (env : Env) (st : AppState) :
    (initApp env st).langLabel = languageLabels st.currentLanguage := by
  unfold initApp updateLanguageUI
  dsimp only
  rw [(loadContent_frame env st.currentPage st.currentLanguage
        (loadNavigation env 2 st.currentLanguage st)).1,
      (loadNavigation_frame env 2 st.currentLanguage st).1]

/-! ### Structure of the rendered navigation tree -/

theorem createDropdownLink_tag (t : String) (l : Option String) :
    (createDropdownLink t l).tag = "a" := by
  unfold createDropdownLink
  split <;> rfl

theorem createNavLink_tag (t : String) (l : Option String) :
    (createNavLink t l).tag = "a" := by
  unfold createNavLink
  split <;> rfl

theorem dropdownMenuEntries_length :
    (items : NavList) → (dropdownMenuEntries items).length = items.length
  | .nil => rfl
  | .cons _ rest => by
    simp [dropdownMenuEntries, NavList.length, dropdownMenuEntries_length rest]

mutual
theorem dropdownMenuEntry_ok : (item : NavItem) → itemNodeOK item (dropdownMenuEntry item)
  | .mk t l none =>
    ⟨rfl, createDropdownLink t l, rfl, createDropdownLink_tag t l⟩
  | .mk t l (some sub) =>
    ⟨rfl,
     DomNode.elem "a" ["dropdown-item", "has-submenu"] [("href", "#")] t none [],
     DomNode.elem "ul" ["dropdown-menu"] [] "" none (dropdownMenuEntries sub),
     rfl, rfl, rfl, rfl,
     by simp [DomNode.childCount, DomNode.children, dropdownMenuEntries_length sub],
     dropdownMenuEntries_ok sub⟩

theorem dropdownMenuEntries_ok :
    (items : NavList) → itemsNodesOK items (dropdownMenuEntries items)
  | .nil => rfl
  | .cons item rest => ⟨dropdownMenuEntry_ok item, dropdownMenuEntries_ok rest⟩
end

/-! ### Claim theorems -/

/-- C1: on startup the resolved active language is the first valid value in
the order URL parameter, stored preference, hard-coded default `'si'`
(valid meaning membership in `{'si','en','ta'}`); it is therefore always a
supported code, and it is immediately persisted as the new stored
preference. -/
theorem initFromURL_resolves_language (params : URLParams) (st : AppState) :
    (initFromURL params st).currentLanguage = resolveLanguageSpec params.lang st.storedLanguage
    ∧ (initFromURL params st).currentLanguage ∈ ["si", "en", "ta"]
    ∧ (initFromURL params st).storedLanguage = some ((initFromURL params st).currentLanguage) := by
  rcases params with ⟨pl, pp⟩
  cases pl with
  | none =>
    cases hst : st.storedLanguage with
    | none => simp [initFromURL, resolveLanguageSpec, validateLanguage, CONFIG, hst]
    | some s =>
      by_cases hs : s ∈ (["si", "en", "ta"] : List String) <;>
        simp_all [initFromURL, resolveLanguageSpec, validateLanguage, CONFIG, hst]
  | some u =>
    by_cases hu : u ∈ (["si", "en", "ta"] : List String)
    · simp_all [initFromURL, resolveLanguageSpec, validateLanguage, CONFIG]
    · cases hst : st.storedLanguage with
      | none => simp_all [initFromURL, resolveLanguageSpec, validateLanguage, CONFIG, hst]
      | some s =>
        by_cases hs : s ∈ (["si", "en", "ta"] : List String) <;>
          simp_all [initFromURL, resolveLanguageSpec, validateLanguage, CONFIG, hst]

/-- C2 counterexample: when the fetched (and processed) content is the
empty string — an empty 200 response body — the claim fails: the first
call caches `""` under the composite key, but the truthiness cache test
`if (cache.pages[cacheKey])` is falsy on it, so a second `loadContent`
call fetches the resource again: two fetches, not at most one. -/
theorem loadContent_empty_refetch_cex :
    (loadContent envEmpty "home.html" "en" st0).fetchLog = [contentPath "en" "home.html"]
    ∧ lookupKey (loadContent envEmpty "home.html" "en" st0).cachePages "en-home.html" = some ""
    ∧ (loadContent envEmpty "home.html" "en" (loadContent envEmpty "home.html" "en" st0)).fetchLog
        = [contentPath "en" "home.html", contentPath "en" "home.html"] := by
  refine ⟨by decide, by decide, by decide⟩

/-- C2 (amended): for a non-external page and a given language, two
consecutive `loadContent` calls whose first fetch succeeds and whose
processed content is a non-empty string issue exactly one fetch in total;
the first call stores the processed content under the composite key
`lang ++ "-" ++ page`, and the second call renders the identical string
from the cache while still pushing a history entry and setting the current
page.  (A cached empty string is falsy and is re-fetched, see the
counterexample.) -/
theorem loadContent_fetches_at_most_once (env : Env) (P L : String) (st : AppState) (t : String)
    (hext : isExternalURL P = false) (hP : P ≠ "") (hL : L ≠ "")
    (hmiss : lookupKey st.cachePages (L ++ "-" ++ P) = none)
    (hfetch : env.fetchText (contentPath L P) = some t)
    (hproc : processedOf env (resolveFileName P) t ≠ "") :
    (loadContent env P L st).fetchLog = st.fetchLog ++ [contentPath L P]
    ∧ (loadContent env P L (loadContent env P L st)).fetchLog = (loadContent env P L st).fetchLog
    ∧ lookupKey (loadContent env P L st).cachePages (L ++ "-" ++ P)
        = some (processedOf env (resolveFileName P) t)
    ∧ (loadContent env P L st).contentDiv = some (processedOf env (resolveFileName P) t)
    ∧ (loadContent env P L (loadContent env P L st)).contentDiv = (loadContent env P L st).contentDiv
    ∧ (loadContent env P L (loadContent env P L st)).history
        = (loadContent env P L st).history ++ [(P, L)]
    ∧ (loadContent env P L (loadContent env P L st)).currentPage = P := by
  have h1 := loadContent_miss_ok_eq env P L st t hext hP hL hmiss hfetch
  have hhit : lookupKey (loadContent env P L st).cachePages (L ++ "-" ++ P)
      = some (processedOf env (resolveFileName P) t) := by
    rw [h1]
    simp [lookupKey]
  have h2 := loadContent_cacheHit_eq env P L (loadContent env P L st) _ hext hP hL hhit hproc
  refine ⟨by rw [h1], by rw [h2], hhit, by rw [h1], ?_, by rw [h2], by rw [h2]⟩
  rw [h2, h1]

/-- Witness for C2 (amended) at page `home.html`, language `en`, in `envA`
(fetched body `"hello"`, processed content non-empty). -/
theorem loadContent_fetches_at_most_once_app :
    (loadContent envA "home.html" "en" st0).fetchLog = st0.fetchLog ++ [contentPath "en" "home.html"]
    ∧ (loadContent envA "home.html" "en" (loadContent envA "home.html" "en" st0)).fetchLog
        = (loadContent envA "home.html" "en" st0).fetchLog := by
  have h := loadContent_fetches_at_most_once envA "home.html" "en" st0 "hello"
    (by decide) (by decide) (by decide) rfl rfl (by decide)
  exact ⟨h.1, h.2.1⟩

/-- C3 counterexample: the page identifier `"about.html"` is distinct from
both `"about"` and `"contact"`, yet `loadContent` fetches it as
`pages/si/about.md` — not under its given file name — and caches the
markdown-converted text instead of the unmodified fetched text. -/
theorem loadContent_html_suffix_cex :
    (loadContent envA "about.html" "si" st0).fetchLog = ["pages/si/about.md"]
    ∧ lookupKey (loadContent envA "about.html" "si" st0).cachePages "si-about.html"
        = some "<p>hello</p>"
    ∧ ("about.html" : String) ≠ "about"
    ∧ ("about.html" : String) ≠ "contact"
    ∧ ("pages/si/about.md" : String) ≠ "pages/si/about.html"
    ∧ ("<p>hello</p>" : String) ≠ "hello" := by
  refine ⟨by decide, by decide, by decide, by decide, by decide, by decide⟩

/-- C3 (amended): for every language, page identifiers whose first
`'.html'` occurrence removed equals `'about'` or `'contact'` resolve to
`about.md` / `contact.md` and all others keep their given name; the
fetched text is converted from markdown to HTML before caching and
rendering exactly when the resolved file name has extension `md` and the
markdown converter is available, and is cached and rendered unmodified
otherwise. -/
theorem loadContent_markdown_resolution (env : Env) (P L : String) (st : AppState) (t : String)
    (hext : isExternalURL P = false) (hP : P ≠ "") (hL : L ≠ "")
    (hmiss : lookupKey st.cachePages (L ++ "-" ++ P) = none)
    (hfetch : env.fetchText (contentPath L P) = some t) :
    (loadContent env P L st).fetchLog = st.fetchLog ++ ["pages/" ++ L ++ "/" ++ resolveFileName P]
    ∧ resolveFileName P =
        (if replaceFirst P ".html" "" ∈ ["contact", "about"]
         then replaceFirst P ".html" "" ++ ".md" else P)
    ∧ lookupKey (loadContent env P L st).cachePages (L ++ "-" ++ P)
        = some (if extOf (resolveFileName P) = "md" ∧ env.markedAvailable = true
                then env.markedParse t else t)
    ∧ (loadContent env P L st).contentDiv
        = some (if extOf (resolveFileName P) = "md" ∧ env.markedAvailable = true
                then env.markedParse t else t) := by
  have h1 := loadContent_miss_ok_eq env P L st t hext hP hL hmiss hfetch
  refine ⟨by rw [h1]; rfl, rfl, ?_, by rw [h1]; rfl⟩
  rw [h1]
  simp [lookupKey, processedOf]

/-- Witness for C3 (amended) at page `about`, language `ta`, in `envA`:
the fetch goes to `pages/ta/about.md` and the cached entry is the
converted markdown. -/
theorem loadContent_markdown_resolution_app :
    (loadContent envA "about" "ta" st0).fetchLog = st0.fetchLog ++ ["pages/ta/about.md"]
    ∧ lookupKey (loadContent envA "about" "ta" st0).cachePages "ta-about" = some "<p>hello</p>" := by
  have h := loadContent_markdown_resolution envA "about" "ta" st0 "hello"
    (by decide) (by decide) (by decide) rfl rfl
  refine ⟨?_, ?_⟩
  · have h1 := h.1
    simpa using h1
  · have h3 := h.2.2.1
    simpa using h3

/-- C4: when the navigation fetch for an uncached language `L ≠ 'si'`
fails, exactly one fallback fetch of `'si'` is issued; if that succeeds
the default navigation is rendered, and if it also fails nothing further
is attempted (the rendered navigation is unchanged); a failed fetch for
`'si'` itself triggers no fallback at all. -/
theorem loadNavigation_single_fallback (env : Env) (L : String) (st : AppState)
    (hmiss : lookupKey st.cacheNav L = none)
    (hfail : env.fetchNav L = none) :
    (L ≠ "si" → lookupKey st.cacheNav "si" = none →
      ((loadNavigation env 2 L st).fetchLog = st.fetchLog ++ [navFetchPath L, navFetchPath "si"]
       ∧ (∀ d, env.fetchNav "si" = some d → (loadNavigation env 2 L st).renderedNav = some d)
       ∧ (env.fetchNav "si" = none → (loadNavigation env 2 L st).renderedNav = st.renderedNav)))
    ∧ (L = "si" →
        (loadNavigation env 2 L st).fetchLog = st.fetchLog ++ [navFetchPath "si"]
        ∧ (loadNavigation env 2 L st).renderedNav = st.renderedNav) := by
  constructor
  · intro hne hmiss2
    have h1 := loadNavigation_fail_fallback_eq env 1 L st hne hmiss hfail
    have hconv : loadNavigation env 1 = loadNavigation env (0 + 1) := rfl
    refine ⟨?_, ?_, ?_⟩
    · rw [h1, hconv]
      cases hsi : env.fetchNav "si" with
      | some d =>
        rw [loadNavigation_miss_ok_eq env 0 "si" _ d]
        · simp
        · exact hmiss2
        · exact hsi
      | none =>
        rw [loadNavigation_fail_default_eq env 0]
        · simp
        · exact hmiss2
        · exact hsi
    · intro d hd
      rw [h1, hconv, loadNavigation_miss_ok_eq env 0 "si" _ d]
      · exact hmiss2
      · exact hd
    · intro hnone
      rw [h1, hconv, loadNavigation_fail_default_eq env 0]
      · exact hmiss2
      · exact hnone
  · intro he
    subst he
    rw [loadNavigation_fail_default_eq env 1 st hmiss hfail]
    exact ⟨rfl, rfl⟩

/-- Witness for C4 at language `en` in `envFail` (both fetches fail): two
fetch attempts, no rendered navigation. -/
theorem loadNavigation_single_fallback_app :
    (loadNavigation envFail 2 "en" st0).fetchLog = st0.fetchLog ++ [navFetchPath "en", navFetchPath "si"]
    ∧ (loadNavigation envFail 2 "en" st0).renderedNav = st0.renderedNav := by
  have h := loadNavigation_single_fallback envFail "en" st0 rfl rfl
  exact ⟨(h.1 (by decide) rfl).1, (h.1 (by decide) rfl).2.2 rfl⟩

/-- C5: for a page identifier beginning with `http://` or `https://`,
`loadContent` opens it in a new tab and does nothing else: no fetch, no
cache entry, no change to the current page or language, no history push. -/
theorem loadContent_external_noop (env : Env) (P L : String) (st : AppState)
    (hext : isExternalURL P = true) :
    (loadContent env P L st).openedTabs = st.openedTabs ++ [P]
    ∧ (loadContent env P L st).fetchLog = st.fetchLog
    ∧ (loadContent env P L st).cachePages = st.cachePages
    ∧ (loadContent env P L st).currentPage = st.currentPage
    ∧ (loadContent env P L st).currentLanguage = st.currentLanguage
    ∧ (loadContent env P L st).history = st.history
    ∧ (loadContent env P L st).url = st.url := by
  rw [loadContent_external_eq env P L st hext]
  exact ⟨rfl, rfl, rfl, rfl, rfl, rfl, rfl⟩

/-- Witness for C5 at `https://example.org`. -/
theorem loadContent_external_noop_app :
    (loadContent envA "https://example.org" "si" stEn).openedTabs
      = stEn.openedTabs ++ ["https://example.org"]
    ∧ (loadContent envA "https://example.org" "si" stEn).fetchLog = stEn.fetchLog
    ∧ (loadContent envA "https://example.org" "si" stEn).cachePages = stEn.cachePages
    ∧ (loadContent envA "https://example.org" "si" stEn).currentPage = stEn.currentPage
    ∧ (loadContent envA "https://example.org" "si" stEn).currentLanguage = stEn.currentLanguage
    ∧ (loadContent envA "https://example.org" "si" stEn).history = stEn.history
    ∧ (loadContent envA "https://example.org" "si" stEn).url = stEn.url :=
  loadContent_external_noop envA "https://example.org" "si" stEn (by decide)

/-- C6 counterexample: a popstate event with absent state is a complete
no-op — the language does not fall back to the default `'si'` and no
re-initialization (no fetch, no navigation render) is triggered, contrary
to the claim. -/
theorem popstate_absent_state_cex :
    (handlePopstate envA none stEn).currentLanguage = "en"
    ∧ (handlePopstate envA none stEn).currentLanguage ≠ "si"
    ∧ (handlePopstate envA none stEn).fetchLog = []
    ∧ (handlePopstate envA none stEn).renderedNav = none := by
  exact ⟨rfl, by decide, rfl, rfl⟩

/-- C6 (amended): the popstate handler acts only when the event carries a
state object: then the language and page are restored from its fields,
each falling back to the defaults `'si'` / `'home.html'` when the field is
absent or empty, and full initialization re-runs on the restored state;
when the event's state is absent the handler does nothing at all. -/
theorem popstate_restores_state (env : Env) (s : PopState) (st : AppState) :
    handlePopstate env none st = st
    ∧ handlePopstate env (some s) st =
        initApp env { st with currentLanguage := jsOr s.lang "si",
                              currentPage := jsOr s.page "home.html" }
    ∧ (handlePopstate env (some s) st).currentLanguage = jsOr s.lang "si"
    ∧ (handlePopstate env (some s) st).langLabel = languageLabels (jsOr s.lang "si") := by
  refine ⟨rfl, rfl, ?_, ?_⟩
  · show (initApp env _).currentLanguage = _
    rw [initApp_currentLanguage]
    rfl
  · show (initApp env _).langLabel = _
    rw [initApp_langLabel]
    rfl

/-- C7: an item without sub-items renders as a list element containing
exactly one link; an item with sub-items renders as a list element holding
a toggle plus a dropdown list whose child count equals the sub-item count,
and the same shape holds recursively at every nesting depth. -/
theorem createNavItem_structure : ∀ item : NavItem, itemNodeOK item (createNavItem item)
  | .mk t l none =>
    ⟨rfl, createNavLink t l, rfl, createNavLink_tag t l⟩
  | .mk t l (some sub) =>
    ⟨rfl, createDropdownToggle t, createDropdownMenu sub, rfl, rfl, rfl, rfl,
     by simp [createDropdownMenu, DomNode.childCount, DomNode.children,
              dropdownMenuEntries_length sub],
     dropdownMenuEntries_ok sub⟩

/-- C8: `setLanguage` with an unsupported argument or with the already
active language is a no-op on the entire state (so in particular the
stored preference, caches, current page, URL and fetch log are untouched). -/
theorem setLanguage_noop (env : Env) (N : String) (st : AppState)
    (h : validateLanguage (some N) = none ∨ N = st.currentLanguage) :
    setLanguage env N st = st := by
  unfold setLanguage
  rw [if_pos h]

/-- Witness for C8: the unsupported code `de` and the already-active code
`en`. -/
theorem setLanguage_noop_app :
    setLanguage envA "de" st0 = st0 ∧ setLanguage envA "en" stEn = stEn :=
  ⟨setLanguage_noop envA "de" st0 (Or.inl (by decide)),
   setLanguage_noop envA "en" stEn (Or.inr rfl)⟩

/-- C9: a failing `loadContent` (cache miss and failed fetch) is atomic:
the page cache, current page, history and URL are unchanged and only the
content container is replaced by the error panel (one fetch is logged). -/
theorem loadContent_failure_atomic (env : Env) (P L : String) (st : AppState)
    (hext : isExternalURL P = false) (hP : P ≠ "") (hL : L ≠ "")
    (hmiss : lookupKey st.cachePages (L ++ "-" ++ P) = none)
    (hfetch : env.fetchText (contentPath L P) = none) :
    (loadContent env P L st).cachePages = st.cachePages
    ∧ (loadContent env P L st).currentPage = st.currentPage
    ∧ (loadContent env P L st).history = st.history
    ∧ (loadContent env P L st).url = st.url
    ∧ (loadContent env P L st).contentDiv = some (errorHtml ("Failed to load page: " ++ P))
    ∧ (loadContent env P L st).fetchLog = st.fetchLog ++ [contentPath L P] := by
  rw [loadContent_miss_fail_eq env P L st hext hP hL hmiss hfetch]
  exact ⟨rfl, rfl, rfl, rfl, rfl, rfl⟩

/-- Witness for C9 at page `home.html`, language `en`, in `envFail`. -/
theorem loadContent_failure_atomic_app :
    (loadContent envFail "home.html" "en" stEn).cachePages = stEn.cachePages
    ∧ (loadContent envFail "home.html" "en" stEn).currentPage = stEn.currentPage
    ∧ (loadContent envFail "home.html" "en" stEn).history = stEn.history
    ∧ (loadContent envFail "home.html" "en" stEn).url = stEn.url
    ∧ (loadContent envFail "home.html" "en" stEn).contentDiv
        = some (errorHtml ("Failed to load page: " ++ "home.html"))
    ∧ (loadContent envFail "home.html" "en" stEn).fetchLog
        = stEn.fetchLog ++ [contentPath "en" "home.html"] :=
  loadContent_failure_atomic envFail "home.html" "en" stEn
    (by decide) (by decide) (by decide) rfl rfl

/-- C10: an item whose `sub_menu` is present but empty renders as a toggle
paired with a dropdown menu of zero items — two children, never the single
plain link of the no-submenu shape. -/
theorem createNavItem_empty_submenu (t : String) (l : Option String) :
    createNavItem (NavItem.mk t l (some NavList.nil)) =
      DomNode.elem "li" ["nav-item", "dropdown"] [] "" none
        [createDropdownToggle t, DomNode.elem "ul" ["dropdown-menu"] [] "" none []]
    ∧ (createNavItem (NavItem.mk t l (some NavList.nil))).childCount = 2
    ∧ ∀ a, (createNavItem (NavItem.mk t l (some NavList.nil))).children ≠ [a] := by
  refine ⟨rfl, rfl, ?_⟩
  intro a h
  simp [createNavItem, DomNode.children] at h

end Katunayaka
